import Mathlib

/-!
# Formal model of the IoT metric simulator (`src/lib/simulator.ts`)

This file gives a shallow embedding of the deterministic metric batch
generator and proves the specified properties about it.  JavaScript numbers
are modelled as exact rationals (`ℚ`); the 32-bit integer arithmetic of the
Mulberry32 PRNG is modelled as `Nat` arithmetic modulo `2^32`; the wall clock
(`Date.now()`) is an explicit `now : Int` parameter.
-/

namespace IotDemo

/-- A single metric point, mirroring `MetricPoint` from `src/lib/types.ts`:
name, numeric value, capture timestamp and string attribute map
(modelled as an association list in insertion order). -/
structure MetricPoint where
  name : String
  value : ℚ
  timestamp : Int
  attributes : List (String × String)
deriving DecidableEq, Repr

/-- A batch of metrics, mirroring `MetricBatch` from `src/lib/types.ts`.
`anomaliesInjected` is `none` when the source returns `undefined`. -/
structure MetricBatch where
  metrics : List MetricPoint
  stepIndex : Nat
  anomaliesInjected : Option (List String)
deriving DecidableEq, Repr

/-- A simulated site (`SITES` entry in `src/lib/simulator.ts`). -/
structure Site where
  id : String
  name : String
  region : String
deriving DecidableEq, Repr

/-- The three fixed sites, in declaration order. -/
def SITES : List Site :=
  [⟨"site-hospital-01", "Hospital", "NA"⟩,
   ⟨"site-restaurant-01", "Restaurant", "EMEA"⟩,
   ⟨"site-foodplant-01", "FoodPlant", "APAC"⟩]

/-- The three fixed device archetypes, in declaration order. -/
def DEVICE_TYPES : List String :=
  ["ChemicalDosingPump", "Dishwasher", "WaterSystem"]

/-- The five anomaly kinds recognized by the generator
(`AnomalyType` in `src/lib/types.ts`). -/
def ANOMALY_KINDS : List String :=
  ["underdosing", "pump_failure", "tank_leak", "thermal_high", "thermal_low"]

/-- The ten metric names (`METRIC_NAMES` in `src/lib/simulator.ts`). -/
def METRIC_NAMES : List String :=
  ["chemical.dosing_rate_lpm", "chemical.tank_level_pct",
   "chemical.conductivity_uS", "sanitation.cycle_count",
   "sanitation.water_temp_c", "sanitation.sanitizer_ppm",
   "water.ph", "water.conductivity_uS", "water.flow_rate_lpm",
   "device.status"]

/-- JavaScript `x | 0` on an integer: reduce to the 32-bit value, here kept
as the unsigned bit pattern in `[0, 2^32)`. -/
def toUint32 (n : Int) : Nat := (n % (4294967296 : Int)).toNat

/-- One step of the Mulberry32 generator from `createSeededRandom`:
given the current 32-bit state, return the next state and the drawn value.
`seed = (seed + 0x6d2b79f5) | 0`;
`t = Math.imul(seed ^ (seed >>> 15), 1 | seed)`;
result `((t ^ (t >>> 15)) >>> 0) / 4294967296`.
All operations are on 32-bit patterns, so `Nat` modulo `2^32` is exact. -/
def mulberryStep (state : Nat) : Nat × ℚ :=
  let s := (state + 0x6d2b79f5) % 4294967296
  let t := ((s ^^^ (s >>> 15)) * (1 ||| s)) % 4294967296
  let u := t ^^^ (t >>> 15)
  (s, (u : ℚ) / 4294967296)

/-- `attr` from `src/lib/simulator.ts`: the five-key attribute record. -/
def attr (siteId siteName region deviceType deviceId : String) :
    List (String × String) :=
  [("site.id", siteId), ("site.name", siteName), ("region", region),
   ("device.type", deviceType), ("device.id", deviceId)]

/-- `point` from `src/lib/simulator.ts`. -/
def point (name : String) (value : ℚ) (timestamp : Int)
    (attributes : List (String × String)) : MetricPoint :=
  { name := name, value := value, timestamp := timestamp,
    attributes := attributes }

/-- Mutable state threaded through the device loop of `generateMetricBatch`:
the PRNG state and the `metrics` / `anomaliesInjected` accumulators. -/
structure GenState where
  rng : Nat
  metrics : List MetricPoint
  anomaliesInjected : List String
deriving Repr

/-- The body of the inner loop of `generateMetricBatch` for one
`(site, deviceType)` pair.  Random draws happen in source order; the
conditional anomaly draws (`tank_leak`, `thermal_high`, `thermal_low`)
advance the PRNG only when their condition holds, exactly as in the source. -/
def deviceStep (stepIndex : Nat) (injectAnomaly : Option String) (now : Int)
    (site : Site) (deviceType : String) (st : GenState) : GenState :=
  let r1 := mulberryStep st.rng
  let deviceId := site.id ++ "-" ++ deviceType ++ "-" ++ toString (⌊r1.2 * 3⌋ + 1)
  let attrs := attr site.id site.name site.region deviceType deviceId
  -- `const t = stepIndex * 0.1 + rng() * 0.5` — t is unused, but the draw advances the PRNG
  let r2 := mulberryStep r1.1
  let _t : ℚ := (stepIndex : ℚ) * 0.1 + r2.2 * 0.5
  let r3 := mulberryStep r2.1
  let cycleCount : ℤ := ⌊(stepIndex : ℚ) * 2 + r3.2 * 3⌋
  if deviceType = "ChemicalDosingPump" then
    let r4 := mulberryStep r3.1
    let dosingRate : ℚ := 0.8 + r4.2 * 0.4
    let r5 := mulberryStep r4.1
    let tankLevel : ℚ := 70 + r5.2 * 25
    let r6 := mulberryStep r5.1
    let conductivity : ℚ := 1200 + r6.2 * 400
    let status : ℚ := 1
    let dosingRate := if injectAnomaly = some "underdosing" then dosingRate * 0.2 else dosingRate
    let conductivity := if injectAnomaly = some "underdosing" then conductivity * 0.3 else conductivity
    let anoms := if injectAnomaly = some "underdosing" then st.anomaliesInjected ++ ["underdosing"] else st.anomaliesInjected
    let status := if injectAnomaly = some "pump_failure" then 0 else status
    let dosingRate := if injectAnomaly = some "pump_failure" then 0 else dosingRate
    let anoms := if injectAnomaly = some "pump_failure" then anoms ++ ["pump_failure"] else anoms
    let r7 := mulberryStep r6.1
    let tankLevel := if injectAnomaly = some "tank_leak" then max 5 (tankLevel - 25 - r7.2 * 15) else tankLevel
    let rngOut := if injectAnomaly = some "tank_leak" then r7.1 else r6.1
    let anoms := if injectAnomaly = some "tank_leak" then anoms ++ ["tank_leak"] else anoms
    { rng := rngOut,
      metrics := st.metrics ++
        [point "chemical.dosing_rate_lpm" dosingRate now attrs,
         point "chemical.tank_level_pct" tankLevel now attrs,
         point "chemical.conductivity_uS" conductivity now attrs,
         point "device.status" status now attrs],
      anomaliesInjected := anoms }
  else if deviceType = "Dishwasher" then
    let r4 := mulberryStep r3.1
    let waterTemp : ℚ := 55 + r4.2 * 15
    let r5 := mulberryStep r4.1
    let sanitizerPpm : ℚ := 45 + r5.2 * 25
    let status : ℚ := 1
    let r6 := mulberryStep r5.1
    let waterTemp := if injectAnomaly = some "thermal_high" then 85 + r6.2 * 10 else waterTemp
    let rngA := if injectAnomaly = some "thermal_high" then r6.1 else r5.1
    let anoms := if injectAnomaly = some "thermal_high" then st.anomaliesInjected ++ ["thermal_high"] else st.anomaliesInjected
    let r7 := mulberryStep rngA
    let waterTemp := if injectAnomaly = some "thermal_low" then 35 + r7.2 * 5 else waterTemp
    let rngB := if injectAnomaly = some "thermal_low" then r7.1 else rngA
    let anoms := if injectAnomaly = some "thermal_low" then anoms ++ ["thermal_low"] else anoms
    let sanitizerPpm := if injectAnomaly = some "underdosing" then sanitizerPpm * 0.25 else sanitizerPpm
    let anoms := if injectAnomaly = some "underdosing" then anoms ++ ["underdosing"] else anoms
    let status := if injectAnomaly = some "pump_failure" then 0 else status
    let sanitizerPpm := if injectAnomaly = some "pump_failure" then 0 else sanitizerPpm
    let anoms := if injectAnomaly = some "pump_failure" then anoms ++ ["pump_failure"] else anoms
    { rng := rngB,
      metrics := st.metrics ++
        [point "sanitation.cycle_count" (cycleCount : ℚ) now attrs,
         point "sanitation.water_temp_c" waterTemp now attrs,
         point "sanitation.sanitizer_ppm" sanitizerPpm now attrs,
         point "device.status" status now attrs],
      anomaliesInjected := anoms }
  else if deviceType = "WaterSystem" then
    let r4 := mulberryStep r3.1
    let ph : ℚ := 7.0 + (r4.2 - 0.5) * 0.8
    let r5 := mulberryStep r4.1
    let conductivity : ℚ := 800 + r5.2 * 300
    let r6 := mulberryStep r5.1
    let flowRate : ℚ := 12 + r6.2 * 8
    let status : ℚ := 1
    let status := if injectAnomaly = some "pump_failure" then 0 else status
    let flowRate := if injectAnomaly = some "pump_failure" then 0 else flowRate
    let anoms := if injectAnomaly = some "pump_failure" then st.anomaliesInjected ++ ["pump_failure"] else st.anomaliesInjected
    { rng := r6.1,
      metrics := st.metrics ++
        [point "water.ph" ph now attrs,
         point "water.conductivity_uS" conductivity now attrs,
         point "water.flow_rate_lpm" flowRate now attrs,
         point "device.status" status now attrs],
      anomaliesInjected := anoms }
  else st

/-- The loop of `generateMetricBatch`, starting from a given PRNG state:
iterate the 3 sites × 3 device archetypes in declaration order, then
package the batch (`anomaliesInjected.length ? list : undefined`). -/
def generateBatchWithRng (rng0 : Nat) (stepIndex : Nat)
    (injectAnomaly : Option String) (now : Int) : MetricBatch :=
  let final := SITES.foldl
    (fun st site => DEVICE_TYPES.foldl
      (fun st2 deviceType => deviceStep stepIndex injectAnomaly now site deviceType st2) st)
    { rng := rng0, metrics := [], anomaliesInjected := [] }
  { metrics := final.metrics,
    stepIndex := stepIndex,
    anomaliesInjected :=
      if final.anomaliesInjected.length = 0 then none
      else some final.anomaliesInjected }

/-- `generateMetricBatch` from `src/lib/simulator.ts`:
seed the PRNG with `seed + stepIndex * 7919` and run the device loop.
`now` stands for the single `Date.now()` sample taken at the start. -/
def generateMetricBatch (seed : Int) (stepIndex : Nat)
    (injectAnomaly : Option String) (now : Int) : MetricBatch :=
  generateBatchWithRng (toUint32 (seed + (stepIndex : Int) * 7919))
    stepIndex injectAnomaly now

/-- `getSiteNames` from `src/lib/simulator.ts`. -/
def getSiteNames : List String := SITES.map (·.name)

/-- Values of all measurements with a given name, in batch order. -/
def valuesOf (name : String) (batch : MetricBatch) : List ℚ :=
  batch.metrics.filterMap (fun m => if m.name = name then some m.value else none)

/-- The (name, value) pairs of all measurements carrying a given
`device.type` attribute, in batch order. -/
def deviceMeasurements (deviceType : String) (batch : MetricBatch) :
    List (String × ℚ) :=
  batch.metrics.filterMap (fun m =>
    if m.attributes.lookup "device.type" = some deviceType
    then some (m.name, m.value) else none)

/-- Which device archetypes respond to each anomaly kind: read off from the
conditional blocks of `generateMetricBatch` (which branches both perturb a
value and push onto `anomaliesInjected`). -/
def affects (k : String) (deviceType : String) : Bool :=
  if deviceType = "ChemicalDosingPump" then
    k == "underdosing" || k == "pump_failure" || k == "tank_leak"
  else if deviceType = "Dishwasher" then
    k == "thermal_high" || k == "thermal_low" || k == "underdosing" || k == "pump_failure"
  else if deviceType = "WaterSystem" then
    k == "pump_failure"
  else false


/-- The (name, value) pairs of all measurements carrying a given
`site.id` and `device.type` attribute pair, in batch order. -/
def siteDeviceMeasurements (siteId deviceType : String) (batch : MetricBatch) :
    List (String × ℚ) :=
  batch.metrics.filterMap (fun m =>
    if m.attributes.lookup "site.id" = some siteId ∧
       m.attributes.lookup "device.type" = some deviceType
    then some (m.name, m.value) else none)

/-- All five attribute keys are present, each with a non-empty value. -/
def attrsOk (m : MetricPoint) : Prop :=
  ((m.attributes.lookup "site.id").isSome = true ∧
    (m.attributes.lookup "site.id").getD "" ≠ "") ∧
  ((m.attributes.lookup "site.name").isSome = true ∧
    (m.attributes.lookup "site.name").getD "" ≠ "") ∧
  ((m.attributes.lookup "region").isSome = true ∧
    (m.attributes.lookup "region").getD "" ≠ "") ∧
  ((m.attributes.lookup "device.type").isSome = true ∧
    (m.attributes.lookup "device.type").getD "" ≠ "") ∧
  ((m.attributes.lookup "device.id").isSome = true ∧
    (m.attributes.lookup "device.id").getD "" ≠ "")

/-- The WaterSystem (name, value) pairs of a metric list. -/
def waterPairs (l : List MetricPoint) : List (String × ℚ) :=
  l.filterMap (fun m =>
    if m.attributes.lookup "device.type" = some "WaterSystem"
    then some (m.name, m.value) else none)

/-- PRNG state after `n` draws of the closure returned by
`createSeededRandom seed`. -/
def createSeededRandomState (seed : Int) : Nat → Nat
  | 0 => toUint32 seed
  | n + 1 => (mulberryStep (createSeededRandomState seed n)).1

/-- The `n`-th value (0-based) drawn from `createSeededRandom seed`. -/
def createSeededRandomNth (seed : Int) (n : Nat) : ℚ :=
  (mulberryStep (createSeededRandomState seed n)).2


/-! ## Helper lemmas -/

/-- Logical shift right never increases a natural number. -/
theorem shiftRight_le_self (m n : Nat) : m >>> n ≤ m := by
  rw [Nat.shiftRight_eq_div_pow]
  exact Nat.div_le_self _ _

/-- The xorshift finisher of Mulberry32 stays below `2^32`. -/
theorem xorshift_lt (t : Nat) (h : t < 4294967296) :
    (t ^^^ (t >>> 15)) < 4294967296 := by
  have h2 : (4294967296 : Nat) = 2 ^ 32 := by norm_num
  rw [h2] at h ⊢
  exact Nat.xor_lt_two_pow h (lt_of_le_of_lt (shiftRight_le_self _ _) h)

/-- Every value drawn by one `mulberryStep` lies in `[0, 1)`. -/
theorem mulberryStep_range (s : Nat) :
    0 ≤ (mulberryStep s).2 ∧ (mulberryStep s).2 < 1 := by
  have key : ∀ u : Nat, u < 4294967296 →
      0 ≤ (u : ℚ) / 4294967296 ∧ (u : ℚ) / 4294967296 < 1 := by
    intro u hu
    constructor
    · positivity
    · rw [div_lt_one (by norm_num)]
      exact_mod_cast hu
  exact key _ (xorshift_lt _ (Nat.mod_lt _ (by norm_num)))

/-- Appending to a non-empty string stays non-empty. -/
theorem append_ne_empty (s t : String) (h : ¬ s = "") : ¬ (s ++ t = "") := by
  intro he
  apply h
  have hlen := congrArg String.length he
  rw [String.length_append] at hlen
  have hs : s.length = 0 := by
    have : String.length "" = 0 := rfl
    omega
  cases s with
  | mk data =>
    cases data with
    | nil => rfl
    | cons c cs => simp [String.length] at hs

/-- A `point` built from a full `attr` record with non-empty fields
satisfies `attrsOk`. -/
theorem attrsOk_point (nm : String) (v : ℚ) (ts : Int)
    (siteId siteName region dt dId : String)
    (h1 : ¬ siteId = "") (h2 : ¬ siteName = "") (h3 : ¬ region = "")
    (h4 : ¬ dt = "") (h5 : ¬ dId = "") :
    attrsOk (point nm v ts (attr siteId siteName region dt dId)) := by
  simp [attrsOk, point, attr, List.lookup, h1, h2, h3, h4, h5]

/-- The generated device id starts with the site id, so it is non-empty
whenever the site id is. -/
theorem deviceId_ne_empty (siteId dt ts : String) (h : ¬ siteId = "") :
    ¬ (siteId ++ "-" ++ dt ++ "-" ++ ts = "") :=
  append_ne_empty _ _ (append_ne_empty _ _ (append_ne_empty _ _ (append_ne_empty _ _ h)))

theorem pump_attrsOk (step : Nat) (anom : Option String) (now : Int)
    (site : Site) (st : GenState)
    (h1 : ¬ site.id = "") (h2 : ¬ site.name = "") (h3 : ¬ site.region = "")
    (hst : ∀ m ∈ st.metrics, attrsOk m) :
    ∀ m ∈ (deviceStep step anom now site "ChemicalDosingPump" st).metrics, attrsOk m := by
  intro m hm
  simp [deviceStep, List.mem_append, List.mem_cons] at hm
  rcases hm with hm | rfl | rfl | rfl | rfl
  · exact hst m hm
  · exact attrsOk_point _ _ _ _ _ _ _ _ h1 h2 h3 (by decide) (deviceId_ne_empty _ _ _ h1)
  · exact attrsOk_point _ _ _ _ _ _ _ _ h1 h2 h3 (by decide) (deviceId_ne_empty _ _ _ h1)
  · exact attrsOk_point _ _ _ _ _ _ _ _ h1 h2 h3 (by decide) (deviceId_ne_empty _ _ _ h1)
  · exact attrsOk_point _ _ _ _ _ _ _ _ h1 h2 h3 (by decide) (deviceId_ne_empty _ _ _ h1)

theorem dish_attrsOk (step : Nat) (anom : Option String) (now : Int)
    (site : Site) (st : GenState)
    (h1 : ¬ site.id = "") (h2 : ¬ site.name = "") (h3 : ¬ site.region = "")
    (hst : ∀ m ∈ st.metrics, attrsOk m) :
    ∀ m ∈ (deviceStep step anom now site "Dishwasher" st).metrics, attrsOk m := by
  intro m hm
  simp [deviceStep, List.mem_append, List.mem_cons] at hm
  rcases hm with hm | rfl | rfl | rfl | rfl
  · exact hst m hm
  · exact attrsOk_point _ _ _ _ _ _ _ _ h1 h2 h3 (by decide) (deviceId_ne_empty _ _ _ h1)
  · exact attrsOk_point _ _ _ _ _ _ _ _ h1 h2 h3 (by decide) (deviceId_ne_empty _ _ _ h1)
  · exact attrsOk_point _ _ _ _ _ _ _ _ h1 h2 h3 (by decide) (deviceId_ne_empty _ _ _ h1)
  · exact attrsOk_point _ _ _ _ _ _ _ _ h1 h2 h3 (by decide) (deviceId_ne_empty _ _ _ h1)

theorem water_attrsOk (step : Nat) (anom : Option String) (now : Int)
    (site : Site) (st : GenState)
    (h1 : ¬ site.id = "") (h2 : ¬ site.name = "") (h3 : ¬ site.region = "")
    (hst : ∀ m ∈ st.metrics, attrsOk m) :
    ∀ m ∈ (deviceStep step anom now site "WaterSystem" st).metrics, attrsOk m := by
  intro m hm
  simp [deviceStep, List.mem_append, List.mem_cons] at hm
  rcases hm with hm | rfl | rfl | rfl | rfl
  · exact hst m hm
  · exact attrsOk_point _ _ _ _ _ _ _ _ h1 h2 h3 (by decide) (deviceId_ne_empty _ _ _ h1)
  · exact attrsOk_point _ _ _ _ _ _ _ _ h1 h2 h3 (by decide) (deviceId_ne_empty _ _ _ h1)
  · exact attrsOk_point _ _ _ _ _ _ _ _ h1 h2 h3 (by decide) (deviceId_ne_empty _ _ _ h1)
  · exact attrsOk_point _ _ _ _ _ _ _ _ h1 h2 h3 (by decide) (deviceId_ne_empty _ _ _ h1)

/-- Any device loop iteration preserves `attrsOk` for every accumulated
measurement, whatever the device type string is (an unknown type is the
identity on the state). -/
theorem deviceStep_attrsOk (step : Nat) (anom : Option String) (now : Int)
    (site : Site) (dt : String) (st : GenState)
    (h1 : ¬ site.id = "") (h2 : ¬ site.name = "") (h3 : ¬ site.region = "")
    (hst : ∀ m ∈ st.metrics, attrsOk m) :
    ∀ m ∈ (deviceStep step anom now site dt st).metrics, attrsOk m := by
  by_cases hc : dt = "ChemicalDosingPump"
  · subst hc; exact pump_attrsOk step anom now site st h1 h2 h3 hst
  by_cases hd : dt = "Dishwasher"
  · subst hd; exact dish_attrsOk step anom now site st h1 h2 h3 hst
  by_cases hw : dt = "WaterSystem"
  · subst hw; exact water_attrsOk step anom now site st h1 h2 h3 hst
  simp only [deviceStep, if_neg hc, if_neg hd, if_neg hw]
  exact hst

theorem dts_foldl_attrsOk (step : Nat) (anom : Option String) (now : Int)
    (site : Site) (dts : List String) (st : GenState)
    (h1 : ¬ site.id = "") (h2 : ¬ site.name = "") (h3 : ¬ site.region = "")
    (hst : ∀ m ∈ st.metrics, attrsOk m) :
    ∀ m ∈ (dts.foldl
      (fun st2 deviceType => deviceStep step anom now site deviceType st2) st).metrics,
      attrsOk m := by
  induction dts generalizing st with
  | nil => exact hst
  | cons d rest ih =>
    rw [List.foldl_cons]
    exact ih _ (deviceStep_attrsOk step anom now site d st h1 h2 h3 hst)

theorem sites_foldl_attrsOk (step : Nat) (anom : Option String) (now : Int)
    (sites : List Site) (st : GenState)
    (hsites : ∀ s ∈ sites, ¬ s.id = "" ∧ ¬ s.name = "" ∧ ¬ s.region = "")
    (hst : ∀ m ∈ st.metrics, attrsOk m) :
    ∀ m ∈ (sites.foldl
      (fun st site => DEVICE_TYPES.foldl
        (fun st2 deviceType => deviceStep step anom now site deviceType st2) st)
      st).metrics, attrsOk m := by
  revert hsites
  induction sites generalizing st with
  | nil => exact fun _ => hst
  | cons s rest ih =>
    intro hsites
    rw [List.foldl_cons]
    have hs := hsites s (List.mem_cons_self s rest)
    exact ih _
      (dts_foldl_attrsOk step anom now s DEVICE_TYPES st hs.1 hs.2.1 hs.2.2 hst)
      (fun x hx => hsites x (List.mem_cons_of_mem s hx))

/-- `⌊step*2 + r*3⌋` with `r ∈ [0,1)` is `2*step`, `2*step+1` or `2*step+2`. -/
theorem cycle_val (step : Nat) (r : ℚ) (h0 : 0 ≤ r) (h1 : r < 1) :
    ((⌊(step : ℚ) * 2 + r * 3⌋ : ℤ) : ℚ) = 2 * (step : ℚ) ∨
    ((⌊(step : ℚ) * 2 + r * 3⌋ : ℤ) : ℚ) = 2 * (step : ℚ) + 1 ∨
    ((⌊(step : ℚ) * 2 + r * 3⌋ : ℤ) : ℚ) = 2 * (step : ℚ) + 2 := by
  have hl : (2 * (step : ℤ)) ≤ ⌊(step : ℚ) * 2 + r * 3⌋ := by
    apply Int.le_floor.mpr
    push_cast
    nlinarith
  have hu : ⌊(step : ℚ) * 2 + r * 3⌋ < 2 * (step : ℤ) + 3 := by
    apply Int.floor_lt.mpr
    push_cast
    nlinarith
  have h3 : ⌊(step : ℚ) * 2 + r * 3⌋ = 2 * (step : ℤ) ∨
      ⌊(step : ℚ) * 2 + r * 3⌋ = 2 * (step : ℤ) + 1 ∨
      ⌊(step : ℚ) * 2 + r * 3⌋ = 2 * (step : ℤ) + 2 := by omega
  rcases h3 with h | h | h
  · left; rw [h]; push_cast; ring
  · right; left; rw [h]; push_cast; ring
  · right; right; rw [h]; push_cast; ring

set_option maxHeartbeats 4000000 in
/-- Every `sanitation.cycle_count` value in a batch is `2*step`, `2*step+1`
or `2*step+2`. -/
theorem cycle_bounds (seed : Int) (step : Nat) (anom : Option String) (now : Int)
    (m : MetricPoint) (hm : m ∈ (generateMetricBatch seed step anom now).metrics)
    (hn : m.name = "sanitation.cycle_count") :
    m.value = 2 * (step : ℚ) ∨ m.value = 2 * (step : ℚ) + 1 ∨
    m.value = 2 * (step : ℚ) + 2 := by
  revert hm hn
  simp [generateMetricBatch, generateBatchWithRng, SITES, DEVICE_TYPES, deviceStep, point, attr]
  rintro (rfl | rfl | rfl | rfl | rfl | rfl | rfl | rfl | rfl | rfl | rfl | rfl |
          rfl | rfl | rfl | rfl | rfl | rfl | rfl | rfl | rfl | rfl | rfl | rfl |
          rfl | rfl | rfl | rfl | rfl | rfl | rfl | rfl | rfl | rfl | rfl | rfl) <;>
    simp <;>
    exact cycle_val step _ (mulberryStep_range _).1 (mulberryStep_range _).2

set_option maxHeartbeats 4000000 in
/-- Every batch has exactly 36 measurements. -/
theorem metrics_length_36 (seed : Int) (step : Nat) (anom : Option String) (now : Int) :
    (generateMetricBatch seed step anom now).metrics.length = 36 := by
  simp [generateMetricBatch, generateBatchWithRng, SITES, DEVICE_TYPES, deviceStep, point, attr]

set_option maxHeartbeats 4000000 in
/-- For each of the five known anomaly kinds, the injected list is exactly one
entry per affected device: the kind replicated, 3 sites times the number of
affected archetypes. -/
theorem anomalies_replicate (seed : Int) (step : Nat) (now : Int) (k : String)
    (hk : k ∈ ANOMALY_KINDS) :
    (generateMetricBatch seed step (some k) now).anomaliesInjected =
      some (List.replicate
        (SITES.length * (DEVICE_TYPES.filter (fun dt => affects k dt)).length) k) := by
  fin_cases hk <;>
    simp [generateMetricBatch, generateBatchWithRng, SITES, DEVICE_TYPES, deviceStep,
      point, attr, affects, List.replicate]

set_option maxHeartbeats 4000000 in
/-- An unknown anomaly selector leaves the whole batch identical to the
no-anomaly batch. -/
theorem unknown_anomaly_eq_none (seed : Int) (step : Nat) (now : Int) (s : String)
    (hs : s ∉ ANOMALY_KINDS) :
    generateMetricBatch seed step (some s) now =
      generateMetricBatch seed step none now := by
  simp only [ANOMALY_KINDS, List.mem_cons, List.not_mem_nil, or_false, not_or] at hs
  obtain ⟨h1, h2, h3, h4, h5⟩ := hs
  simp [generateMetricBatch, generateBatchWithRng, SITES, DEVICE_TYPES, deviceStep,
    point, attr, h1, h2, h3, h4, h5]

set_option maxHeartbeats 2000000 in
/-- The no-anomaly batch records no injected anomalies. -/
theorem none_anomaliesInjected (seed : Int) (step : Nat) (now : Int) :
    (generateMetricBatch seed step none now).anomaliesInjected = none := by
  rfl



theorem pump_underdosing_frame (step : Nat) (now : Int) (site : Site)
    (st st2 : GenState) (hr : st.rng = st2.rng)
    (hw : waterPairs st.metrics = waterPairs st2.metrics) :
    (deviceStep step (some "underdosing") now site "ChemicalDosingPump" st).rng =
      (deviceStep step none now site "ChemicalDosingPump" st2).rng ∧
    waterPairs (deviceStep step (some "underdosing") now site "ChemicalDosingPump" st).metrics =
      waterPairs (deviceStep step none now site "ChemicalDosingPump" st2).metrics := by
  refine ⟨?_, ?_⟩
  · simp [deviceStep, hr]
  · simp [deviceStep, waterPairs, point, attr, List.filterMap_append, List.lookup, hr]
    simpa [waterPairs] using hw

theorem dish_underdosing_frame (step : Nat) (now : Int) (site : Site)
    (st st2 : GenState) (hr : st.rng = st2.rng)
    (hw : waterPairs st.metrics = waterPairs st2.metrics) :
    (deviceStep step (some "underdosing") now site "Dishwasher" st).rng =
      (deviceStep step none now site "Dishwasher" st2).rng ∧
    waterPairs (deviceStep step (some "underdosing") now site "Dishwasher" st).metrics =
      waterPairs (deviceStep step none now site "Dishwasher" st2).metrics := by
  refine ⟨?_, ?_⟩
  · simp [deviceStep, hr]
  · simp [deviceStep, waterPairs, point, attr, List.filterMap_append, List.lookup, hr]
    simpa [waterPairs] using hw

theorem water_underdosing_frame (step : Nat) (now : Int) (site : Site)
    (st st2 : GenState) (hr : st.rng = st2.rng)
    (hw : waterPairs st.metrics = waterPairs st2.metrics) :
    (deviceStep step (some "underdosing") now site "WaterSystem" st).rng =
      (deviceStep step none now site "WaterSystem" st2).rng ∧
    waterPairs (deviceStep step (some "underdosing") now site "WaterSystem" st).metrics =
      waterPairs (deviceStep step none now site "WaterSystem" st2).metrics := by
  refine ⟨?_, ?_⟩
  · simp [deviceStep, hr]
  · simp [deviceStep, waterPairs, point, attr, List.filterMap_append, List.lookup, hr]
    simpa [waterPairs] using hw

/-- One device iteration preserves the underdosing/baseline frame relation,
for any device type string. -/
theorem deviceStep_underdosing_frame (step : Nat) (now : Int) (site : Site)
    (dt : String) (st st2 : GenState) (hr : st.rng = st2.rng)
    (hw : waterPairs st.metrics = waterPairs st2.metrics) :
    (deviceStep step (some "underdosing") now site dt st).rng =
      (deviceStep step none now site dt st2).rng ∧
    waterPairs (deviceStep step (some "underdosing") now site dt st).metrics =
      waterPairs (deviceStep step none now site dt st2).metrics := by
  by_cases hc : dt = "ChemicalDosingPump"
  · subst hc; exact pump_underdosing_frame step now site st st2 hr hw
  by_cases hd : dt = "Dishwasher"
  · subst hd; exact dish_underdosing_frame step now site st st2 hr hw
  by_cases hv : dt = "WaterSystem"
  · subst hv; exact water_underdosing_frame step now site st st2 hr hw
  simp only [deviceStep, if_neg hc, if_neg hd, if_neg hv]
  exact ⟨hr, hw⟩

theorem dts_underdosing_frame (step : Nat) (now : Int) (site : Site)
    (dts : List String) (st st2 : GenState) (hr : st.rng = st2.rng)
    (hw : waterPairs st.metrics = waterPairs st2.metrics) :
    (dts.foldl (fun s2 deviceType =>
        deviceStep step (some "underdosing") now site deviceType s2) st).rng =
      (dts.foldl (fun s2 deviceType =>
        deviceStep step none now site deviceType s2) st2).rng ∧
    waterPairs (dts.foldl (fun s2 deviceType =>
        deviceStep step (some "underdosing") now site deviceType s2) st).metrics =
      waterPairs (dts.foldl (fun s2 deviceType =>
        deviceStep step none now site deviceType s2) st2).metrics := by
  induction dts generalizing st st2 with
  | nil => exact ⟨hr, hw⟩
  | cons d rest ih =>
    rw [List.foldl_cons, List.foldl_cons]
    have h := deviceStep_underdosing_frame step now site d st st2 hr hw
    exact ih _ _ h.1 h.2

theorem sites_underdosing_frame (step : Nat) (now : Int) (sites : List Site)
    (st st2 : GenState) (hr : st.rng = st2.rng)
    (hw : waterPairs st.metrics = waterPairs st2.metrics) :
    (sites.foldl (fun s site => DEVICE_TYPES.foldl (fun s2 deviceType =>
        deviceStep step (some "underdosing") now site deviceType s2) s) st).rng =
      (sites.foldl (fun s site => DEVICE_TYPES.foldl (fun s2 deviceType =>
        deviceStep step none now site deviceType s2) s) st2).rng ∧
    waterPairs (sites.foldl (fun s site => DEVICE_TYPES.foldl (fun s2 deviceType =>
        deviceStep step (some "underdosing") now site deviceType s2) s) st).metrics =
      waterPairs (sites.foldl (fun s site => DEVICE_TYPES.foldl (fun s2 deviceType =>
        deviceStep step none now site deviceType s2) s) st2).metrics := by
  induction sites generalizing st st2 with
  | nil => exact ⟨hr, hw⟩
  | cons s rest ih =>
    rw [List.foldl_cons, List.foldl_cons]
    have h := dts_underdosing_frame step now s DEVICE_TYPES st st2 hr hw
    exact ih _ _ h.1 h.2

/-- The WaterSystem measurements agree between the underdosing batch and the
baseline batch, for every seed and step. -/
theorem underdosing_water_frame (seed : Int) (step : Nat) (now : Int) :
    deviceMeasurements "WaterSystem"
        (generateMetricBatch seed step (some "underdosing") now) =
      deviceMeasurements "WaterSystem" (generateMetricBatch seed step none now) := by
  have h : waterPairs (SITES.foldl (fun s site => DEVICE_TYPES.foldl (fun s2 deviceType =>
      deviceStep step (some "underdosing") now site deviceType s2) s)
        { rng := toUint32 (seed + (step : Int) * 7919), metrics := [],
          anomaliesInjected := [] }).metrics =
      waterPairs (SITES.foldl (fun s site => DEVICE_TYPES.foldl (fun s2 deviceType =>
      deviceStep step none now site deviceType s2) s)
        { rng := toUint32 (seed + (step : Int) * 7919), metrics := [],
          anomaliesInjected := [] }).metrics :=
    (sites_underdosing_frame step now SITES _ _ rfl rfl).2
  exact h

/-! ## Claim theorems -/

set_option maxHeartbeats 2000000 in
/-- C1: for every (seed, stepIndex, injectAnomaly), two calls of
`generateMetricBatch` at arbitrary wall-clock readings produce identical
measurement name/value multisets and identical `anomaliesInjected`; the
timestamp is the single per-batch clock sample, stamped on every
measurement. -/
theorem c1_determinism (seed : Int) (step : Nat) (anom : Option String)
    (now1 now2 : Int) (m : MetricPoint)
    (hm : m ∈ (generateMetricBatch seed step anom now1).metrics) :
    ((((generateMetricBatch seed step anom now1).metrics.map
        (fun p => (p.name, p.value)) : List (String × ℚ)) : Multiset (String × ℚ)) =
      (((generateMetricBatch seed step anom now2).metrics.map
        (fun p => (p.name, p.value)) : List (String × ℚ)) : Multiset (String × ℚ))) ∧
    (generateMetricBatch seed step anom now1).anomaliesInjected =
      (generateMetricBatch seed step anom now2).anomaliesInjected ∧
    m.timestamp = now1 := by
  refine ⟨by rfl, by rfl, ?_⟩
  revert hm
  simp [generateMetricBatch, generateBatchWithRng, SITES, DEVICE_TYPES, deviceStep, point, attr]
  rintro (rfl | rfl | rfl | rfl | rfl | rfl | rfl | rfl | rfl | rfl | rfl | rfl |
          rfl | rfl | rfl | rfl | rfl | rfl | rfl | rfl | rfl | rfl | rfl | rfl |
          rfl | rfl | rfl | rfl | rfl | rfl | rfl | rfl | rfl | rfl | rfl | rfl) <;> rfl

theorem c1_determinism_witness :
    ((point "chemical.dosing_rate_lpm" (1120090797 / 1342177280 : ℚ) 0
        (attr "site-hospital-01" "Hospital" "NA" "ChemicalDosingPump"
          "site-hospital-01-ChemicalDosingPump-1"))
      ∈ (generateMetricBatch 42 0 none 0).metrics) ∧
    (((((generateMetricBatch 42 0 none 0).metrics.map
        (fun p => (p.name, p.value)) : List (String × ℚ)) : Multiset (String × ℚ)) =
      (((generateMetricBatch 42 0 none 7).metrics.map
        (fun p => (p.name, p.value)) : List (String × ℚ)) : Multiset (String × ℚ))) ∧
    (generateMetricBatch 42 0 none 0).anomaliesInjected =
      (generateMetricBatch 42 0 none 7).anomaliesInjected ∧
    (point "chemical.dosing_rate_lpm" (1120090797 / 1342177280 : ℚ) 0
        (attr "site-hospital-01" "Hospital" "NA" "ChemicalDosingPump"
          "site-hospital-01-ChemicalDosingPump-1")).timestamp = 0) :=
  ⟨by with_unfolding_all exact List.Mem.head _,
    c1_determinism 42 0 none 0 7 _ (by with_unfolding_all exact List.Mem.head _)⟩

set_option maxHeartbeats 4000000 in
/-- C2: every batch contains exactly 36 measurements (3 sites × 3 archetypes
× 4 measurements); each (site, archetype) pair contributes exactly 4 named
measurements, one of which is its own `device.status`. -/
theorem c2_batch_counts (seed : Int) (step : Nat) (anom : Option String) (now : Int)
    (site : Site) (dt : String) (hs : site ∈ SITES) (hd : dt ∈ DEVICE_TYPES) :
    (generateMetricBatch seed step anom now).metrics.length = 36 ∧
    (siteDeviceMeasurements site.id dt (generateMetricBatch seed step anom now)).length = 4 ∧
    "device.status" ∈ (siteDeviceMeasurements site.id dt
      (generateMetricBatch seed step anom now)).map Prod.fst := by
  refine ⟨metrics_length_36 seed step anom now, ?_⟩
  fin_cases hs <;> fin_cases hd <;>
    simp [generateMetricBatch, generateBatchWithRng, SITES, DEVICE_TYPES, deviceStep,
      point, attr, siteDeviceMeasurements, List.lookup]

theorem c2_batch_counts_witness :
    ((⟨"site-hospital-01", "Hospital", "NA"⟩ : Site) ∈ SITES ∧
      "ChemicalDosingPump" ∈ DEVICE_TYPES) ∧
    ((generateMetricBatch 42 0 none 0).metrics.length = 36 ∧
    (siteDeviceMeasurements "site-hospital-01" "ChemicalDosingPump"
      (generateMetricBatch 42 0 none 0)).length = 4 ∧
    "device.status" ∈ (siteDeviceMeasurements "site-hospital-01" "ChemicalDosingPump"
      (generateMetricBatch 42 0 none 0)).map Prod.fst) :=
  ⟨⟨by decide, by decide⟩,
    c2_batch_counts 42 0 none 0 ⟨"site-hospital-01", "Hospital", "NA"⟩
      "ChemicalDosingPump" (by decide) (by decide)⟩

/-- C3 (counterexample): requesting `pump_failure` yields 9 entries in
`anomaliesInjected`, not 3 as the claim states. -/
theorem c3_counterexample :
    (generateMetricBatch 42 0 (some "pump_failure") 0).anomaliesInjected.map
        List.length = some 9 ∧
    ¬ ((generateMetricBatch 42 0 (some "pump_failure") 0).anomaliesInjected.map
        List.length = some 3) := by
  with_unfolding_all decide

/-- C3 (amended): for every (seed, stepIndex) and every known anomaly kind,
`anomaliesInjected` is the requested kind replicated once per affected device
(3 sites × number of affected archetypes, not deduplicated); in particular
`pump_failure` yields 9 entries — one per device, three per site — and
`tank_leak` yields 3. -/
theorem c3_anomaly_cardinality (seed : Int) (step : Nat) (now : Int) (k : String)
    (hk : k ∈ ANOMALY_KINDS) :
    (generateMetricBatch seed step (some k) now).anomaliesInjected =
      some (List.replicate
        (SITES.length * (DEVICE_TYPES.filter (fun dt => affects k dt)).length) k) ∧
    (generateMetricBatch seed step (some "pump_failure") now).anomaliesInjected.map
        List.length = some 9 ∧
    (generateMetricBatch seed step (some "tank_leak") now).anomaliesInjected.map
        List.length = some 3 := by
  refine ⟨anomalies_replicate seed step now k hk, ?_, ?_⟩
  · rw [anomalies_replicate seed step now "pump_failure" (by decide)]
    decide
  · rw [anomalies_replicate seed step now "tank_leak" (by decide)]
    decide

theorem c3_anomaly_cardinality_witness :
    ("tank_leak" ∈ ANOMALY_KINDS) ∧
    ((generateMetricBatch 42 0 (some "tank_leak") 0).anomaliesInjected =
      some (List.replicate
        (SITES.length *
          (DEVICE_TYPES.filter (fun dt => affects "tank_leak" dt)).length) "tank_leak") ∧
    (generateMetricBatch 42 0 (some "pump_failure") 0).anomaliesInjected.map
        List.length = some 9 ∧
    (generateMetricBatch 42 0 (some "tank_leak") 0).anomaliesInjected.map
        List.length = some 3) :=
  ⟨by decide, c3_anomaly_cardinality 42 0 0 "tank_leak" (by decide)⟩

/-- C4 (counterexample): `tank_leak` does not affect the Dishwasher archetype,
yet the Dishwasher water-temperature values change between the anomalous and
the baseline batch (the extra random draw in the pump branch shifts the
stream), refuting the claimed frame property. -/
theorem c4_counterexample :
    affects "tank_leak" "Dishwasher" = false ∧
    valuesOf "sanitation.water_temp_c" (generateMetricBatch 1 0 (some "tank_leak") 0) ≠
      valuesOf "sanitation.water_temp_c" (generateMetricBatch 1 0 none 0) := by
  with_unfolding_all decide

set_option maxHeartbeats 4000000 in
/-- C4 (amended): for the anomaly kinds that consume no extra random draw
(`underdosing`, `pump_failure`), every archetype the kind does not affect
produces exactly the baseline measurement values; the kinds that draw extra
randomness (`tank_leak`, `thermal_high`, `thermal_low`) shift the stream of
devices iterated later, so their unaffected archetypes generally differ. -/
theorem c4_frame (seed : Int) (step : Nat) (now : Int) (k dt : String)
    (hk : k ∈ (["underdosing", "pump_failure"] : List String))
    (hdt : dt ∈ DEVICE_TYPES) (hna : affects k dt = false) :
    deviceMeasurements dt (generateMetricBatch seed step (some k) now) =
      deviceMeasurements dt (generateMetricBatch seed step none now) := by
  fin_cases hk <;> fin_cases hdt <;>
    first
      | exact absurd hna (by decide)
      | exact underdosing_water_frame seed step now

theorem c4_frame_witness :
    ("underdosing" ∈ (["underdosing", "pump_failure"] : List String) ∧
      "WaterSystem" ∈ DEVICE_TYPES ∧ affects "underdosing" "WaterSystem" = false) ∧
    deviceMeasurements "WaterSystem" (generateMetricBatch 5 0 (some "underdosing") 0) =
      deviceMeasurements "WaterSystem" (generateMetricBatch 5 0 none 0) :=
  ⟨⟨by decide, by decide, by decide⟩,
    c4_frame 5 0 0 "underdosing" "WaterSystem" (by decide) (by decide) (by decide)⟩

/-- C5: the generator has no failure path: for any seed, step and selector it
returns a complete 36-measurement batch, and an unknown selector produces
exactly the batch of the no-anomaly call, with nothing recorded as
injected. -/
theorem c5_no_failure_path (seed : Int) (step : Nat) (now : Int) (s : String)
    (hs : s ∉ ANOMALY_KINDS) :
    generateMetricBatch seed step (some s) now =
      generateMetricBatch seed step none now ∧
    (generateMetricBatch seed step (some s) now).metrics.length = 36 ∧
    (generateMetricBatch seed step (some s) now).anomaliesInjected = none := by
  have he := unknown_anomaly_eq_none seed step now s hs
  refine ⟨he, ?_, ?_⟩
  · rw [he]
    exact metrics_length_36 seed step none now
  · rw [he]
    exact none_anomaliesInjected seed step now

theorem c5_no_failure_path_witness :
    ("frobnicate" ∉ ANOMALY_KINDS) ∧
    (generateMetricBatch 42 0 (some "frobnicate") 0 =
      generateMetricBatch 42 0 none 0 ∧
    (generateMetricBatch 42 0 (some "frobnicate") 0).metrics.length = 36 ∧
    (generateMetricBatch 42 0 (some "frobnicate") 0).anomaliesInjected = none) :=
  ⟨by decide, c5_no_failure_path 42 0 0 "frobnicate" (by decide)⟩

/-- C6: every measurement of every batch carries all five attribute keys
(`site.id`, `site.name`, `region`, `device.type`, `device.id`), each with a
non-empty string value. -/
theorem c6_attribute_completeness (seed : Int) (step : Nat) (anom : Option String)
    (now : Int) (m : MetricPoint)
    (hm : m ∈ (generateMetricBatch seed step anom now).metrics) :
    attrsOk m := by
  have hm2 : m ∈ (SITES.foldl
      (fun st site => DEVICE_TYPES.foldl
        (fun st2 deviceType => deviceStep step anom now site deviceType st2) st)
      { rng := toUint32 (seed + (step : Int) * 7919), metrics := [],
        anomaliesInjected := [] }).metrics := hm
  exact sites_foldl_attrsOk step anom now SITES _ (by decide)
    (fun x hx => absurd hx (List.not_mem_nil x)) m hm2

theorem c6_attribute_completeness_witness :
    ((point "chemical.dosing_rate_lpm" (1120090797 / 1342177280 : ℚ) 0
        (attr "site-hospital-01" "Hospital" "NA" "ChemicalDosingPump"
          "site-hospital-01-ChemicalDosingPump-1"))
      ∈ (generateMetricBatch 42 0 none 0).metrics) ∧
    attrsOk (point "chemical.dosing_rate_lpm" (1120090797 / 1342177280 : ℚ) 0
        (attr "site-hospital-01" "Hospital" "NA" "ChemicalDosingPump"
          "site-hospital-01-ChemicalDosingPump-1")) :=
  ⟨by with_unfolding_all exact List.Mem.head _,
    c6_attribute_completeness 42 0 none 0 _ (by with_unfolding_all exact List.Mem.head _)⟩

/-- C7: every value drawn from the seeded random source lies in `[0, 1)`
(the state arithmetic is `Nat` modulo `2^32`, the model of JavaScript's
32-bit wraparound), and `generateMetricBatch` re-initializes the source each
call from the mixed seed `seed + stepIndex * 7919`. -/
theorem c7_prng_contract (seed : Int) (n : Nat) (stepIndex : Nat)
    (anom : Option String) (now : Int) :
    (0 ≤ createSeededRandomNth seed n ∧ createSeededRandomNth seed n < 1) ∧
    generateMetricBatch seed stepIndex anom now =
      generateBatchWithRng (toUint32 (seed + (stepIndex : Int) * 7919))
        stepIndex anom now :=
  ⟨mulberryStep_range _, rfl⟩

set_option maxHeartbeats 2000000 in
/-- C8: every `sanitation.cycle_count` value at step `s` equals
`⌊s*2 + r*3⌋` for a draw `r ∈ [0,1)` — hence is `2s`, `2s+1` or `2s+2` — and
is at most every `sanitation.cycle_count` value of a batch at step `s+1`
with the same seed: the counter grows with the step index. -/
theorem c8_cycle_count (seed : Int) (step : Nat) (anom anom2 : Option String)
    (now now2 : Int) (m m2 : MetricPoint)
    (hm : m ∈ (generateMetricBatch seed step anom now).metrics)
    (hm2 : m2 ∈ (generateMetricBatch seed (step + 1) anom2 now2).metrics)
    (hn : m.name = "sanitation.cycle_count")
    (hn2 : m2.name = "sanitation.cycle_count") :
    (m.value = 2 * (step : ℚ) ∨ m.value = 2 * (step : ℚ) + 1 ∨
      m.value = 2 * (step : ℚ) + 2) ∧
    m.value ≤ m2.value := by
  have h1 := cycle_bounds seed step anom now m hm hn
  have h2 := cycle_bounds seed (step + 1) anom2 now2 m2 hm2 hn2
  refine ⟨h1, ?_⟩
  rcases h1 with h | h | h <;> rcases h2 with h' | h' | h' <;>
    rw [h, h'] <;> push_cast <;> linarith

theorem c8_cycle_count_witness :
    ((point "sanitation.cycle_count" 2 0
        (attr "site-hospital-01" "Hospital" "NA" "Dishwasher"
          "site-hospital-01-Dishwasher-3"))
      ∈ (generateMetricBatch 42 0 none 0).metrics ∧
    (point "sanitation.cycle_count" 2 0
        (attr "site-hospital-01" "Hospital" "NA" "Dishwasher"
          "site-hospital-01-Dishwasher-1"))
      ∈ (generateMetricBatch 42 (0 + 1) none 0).metrics) ∧
    (((point "sanitation.cycle_count" 2 0
        (attr "site-hospital-01" "Hospital" "NA" "Dishwasher"
          "site-hospital-01-Dishwasher-3")).value = 2 * ((0 : Nat) : ℚ) ∨
      (point "sanitation.cycle_count" 2 0
        (attr "site-hospital-01" "Hospital" "NA" "Dishwasher"
          "site-hospital-01-Dishwasher-3")).value = 2 * ((0 : Nat) : ℚ) + 1 ∨
      (point "sanitation.cycle_count" 2 0
        (attr "site-hospital-01" "Hospital" "NA" "Dishwasher"
          "site-hospital-01-Dishwasher-3")).value = 2 * ((0 : Nat) : ℚ) + 2) ∧
    (point "sanitation.cycle_count" 2 0
        (attr "site-hospital-01" "Hospital" "NA" "Dishwasher"
          "site-hospital-01-Dishwasher-3")).value ≤
      (point "sanitation.cycle_count" 2 0
        (attr "site-hospital-01" "Hospital" "NA" "Dishwasher"
          "site-hospital-01-Dishwasher-1")).value) :=
  ⟨⟨by with_unfolding_all exact List.Mem.tail _ (List.Mem.tail _ (List.Mem.tail _
        (List.Mem.tail _ (List.Mem.head _)))),
      by with_unfolding_all exact List.Mem.tail _ (List.Mem.tail _ (List.Mem.tail _
        (List.Mem.tail _ (List.Mem.head _))))⟩,
    c8_cycle_count 42 0 none none 0 0 _ _
      (by with_unfolding_all exact List.Mem.tail _ (List.Mem.tail _ (List.Mem.tail _
        (List.Mem.tail _ (List.Mem.head _)))))
      (by with_unfolding_all exact List.Mem.tail _ (List.Mem.tail _ (List.Mem.tail _
        (List.Mem.tail _ (List.Mem.head _))))) rfl rfl⟩

set_option maxHeartbeats 2000000 in
/-- C9: at seed 77, step 0, the mean of the three `chemical.tank_level_pct`
values strictly decreases under `tank_leak`, and no anomalous tank level is
below 5 — for any wall-clock readings of the two calls. -/
theorem c9_tank_leak (now1 now2 : Int) :
    (valuesOf "chemical.tank_level_pct"
        (generateMetricBatch 77 0 (some "tank_leak") now1)).sum / 3 <
      (valuesOf "chemical.tank_level_pct" (generateMetricBatch 77 0 none now2)).sum / 3 ∧
    ((valuesOf "chemical.tank_level_pct"
        (generateMetricBatch 77 0 (some "tank_leak") now1)).all
      (fun v => decide (5 ≤ v))) = true := by
  have h1 : valuesOf "chemical.tank_level_pct"
      (generateMetricBatch 77 0 (some "tank_leak") now1) =
      valuesOf "chemical.tank_level_pct" (generateMetricBatch 77 0 (some "tank_leak") 0) := by
    with_unfolding_all rfl
  have h2 : valuesOf "chemical.tank_level_pct" (generateMetricBatch 77 0 none now2) =
      valuesOf "chemical.tank_level_pct" (generateMetricBatch 77 0 none 0) := by
    with_unfolding_all rfl
  rw [h1, h2]
  with_unfolding_all decide

/-- C10: `anomaliesInjected` is never an empty list: it is absent for an
unknown selector and for no selector, and for each known kind it is a
non-empty replication of that kind. -/
theorem c10_anomalies_shape (seed : Int) (step : Nat) (now : Int) (k s : String)
    (hk : k ∈ ANOMALY_KINDS) (hs : s ∉ ANOMALY_KINDS) :
    (generateMetricBatch seed step (some s) now).anomaliesInjected = none ∧
    (generateMetricBatch seed step none now).anomaliesInjected = none ∧
    (generateMetricBatch seed step (some k) now).anomaliesInjected =
      some (List.replicate
        (SITES.length * (DEVICE_TYPES.filter (fun dt => affects k dt)).length) k) ∧
    0 < SITES.length * (DEVICE_TYPES.filter (fun dt => affects k dt)).length := by
  refine ⟨?_, none_anomaliesInjected seed step now,
    anomalies_replicate seed step now k hk, ?_⟩
  · rw [unknown_anomaly_eq_none seed step now s hs]
    exact none_anomaliesInjected seed step now
  · fin_cases hk <;> decide

theorem c10_anomalies_shape_witness :
    ("underdosing" ∈ ANOMALY_KINDS ∧ "bogus" ∉ ANOMALY_KINDS) ∧
    ((generateMetricBatch 42 0 (some "bogus") 0).anomaliesInjected = none ∧
    (generateMetricBatch 42 0 none 0).anomaliesInjected = none ∧
    (generateMetricBatch 42 0 (some "underdosing") 0).anomaliesInjected =
      some (List.replicate
        (SITES.length *
          (DEVICE_TYPES.filter (fun dt => affects "underdosing" dt)).length) "underdosing") ∧
    0 < SITES.length *
        (DEVICE_TYPES.filter (fun dt => affects "underdosing" dt)).length) :=
  ⟨⟨by decide, by decide⟩, c10_anomalies_shape 42 0 0 "underdosing" "bogus"
    (by decide) (by decide)⟩

end IotDemo
